import Mathlib

/-!
Shallow embedding of `src/app.js`, a single-page movie-search application:
a JavaScript value model, the card renderer (`makeCard`), the
fetch/abort/settle scheduler around `fetchJson`/`searchMovies`/
`loadTrending`/`notifyError`, the input debounce of `wireEvents`, and the
credential store (`loadApiKey`/`saveApiKey`).
-/

namespace MovieApp

/-- JavaScript runtime values as they occur in this application: the JSON
values plus `undefined` for missing properties. Numbers are modelled as
rationals (every finite double is rational; `NaN`/`Infinity` do not arise
in this program's data paths). -/
inductive JsVal : Type
  | undefined : JsVal
  | null : JsVal
  | bool : Bool → JsVal
  | num : ℚ → JsVal
  | str : String → JsVal
  | arr : List JsVal → JsVal
  | obj : List (String × JsVal) → JsVal

/-- JavaScript truthiness (`Boolean(v)`): `undefined`, `null`, `false`,
`0` and the empty string are falsy; arrays and objects are always truthy. -/
def truthy : JsVal → Bool
  | .undefined => false
  | .null => false
  | .bool b => b
  | .num q => q != 0
  | .str s => s != ""
  | .arr _ => true
  | .obj _ => true

/-- Property lookup on an object's field list; a later duplicate key
shadows an earlier one, as in `JSON.parse` and object literals. -/
def lookupField (fields : List (String × JsVal)) (k : String) : Option JsVal :=
  fields.reverse.lookup k

/-- Property access `v[k]`. Throws a `TypeError` on a nullish receiver
(message text approximates the browser's wording); yields `undefined` for a
missing property or a primitive/array receiver (none of the property names
this program reads exists on those). -/
def getField : JsVal → String → Except String JsVal
  | .undefined, k => .error ("TypeError: cannot read property " ++ k ++ " of undefined")
  | .null, k => .error ("TypeError: cannot read property " ++ k ++ " of null")
  | .obj fields, k => .ok ((lookupField fields k).getD .undefined)
  | _, _ => .ok .undefined

/-- Total property access, for stating claims: the value `v[k]` evaluates
to when the receiver is not nullish. -/
def fieldOf (v : JsVal) (k : String) : JsVal :=
  match v with
  | .obj fields => (lookupField fields k).getD .undefined
  | _ => .undefined

/-- Whether a value is a JavaScript array (`Array.isArray`). -/
def JsVal.isArr : JsVal → Bool
  | .arr _ => true
  | _ => false

/-- Whether a value has `typeof v === "number"`. -/
def JsVal.isNum : JsVal → Bool
  | .num _ => true
  | _ => false

/-- Whether a value is `null` or `undefined` (property access throws). -/
def JsVal.isNullish : JsVal → Bool
  | .null => true
  | .undefined => true
  | _ => false

theorem getField_ok (v : JsVal) (k : String) (h : v.isNullish = false) :
    getField v k = .ok (fieldOf v k) := by
  cases v <;> simp_all [getField, fieldOf, JsVal.isNullish]

/-- The core of `Number.prototype.toFixed(1)` for a non-negative argument: the integer
`n` nearest to ten times the value, ties resolved to the larger candidate
(ECMA-262), printed with one digit after the point. `n = ⌊10q + 1/2⌋`,
computed on the numerator/denominator representation so that it evaluates
(see `toFixed1core_rounds`). -/
def toFixed1core (q : ℚ) : String :=
  let n : ℤ := (20 * q.num + (q.den : ℤ)) / (2 * (q.den : ℤ))
  toString (n / 10) ++ "." ++ toString (n % 10)

theorem toFixed1core_rounds (q : ℚ) :
    (20 * q.num + (q.den : ℤ)) / (2 * (q.den : ℤ)) = ⌊q * 10 + 1 / 2⌋ := by
  have hden : ((q.den : ℚ)) ≠ 0 := by
    exact_mod_cast q.den_nz
  have hq : (q * 10 + 1 / 2 : ℚ) =
      ((20 * q.num + (q.den : ℤ) : ℤ) : ℚ) / ((2 * q.den : ℕ) : ℚ) := by
    nth_rewrite 1 [← Rat.num_div_den q]
    field_simp
    ring
  rw [hq, Rat.floor_intCast_div_natCast]
  push_cast
  ring_nf

/-- Full `Number.prototype.toFixed(1)`: a negative argument emits a sign and
formats its magnitude (ECMA-262 step 10). The rational model agrees with
the double computation on this program's rating values. -/
def toFixed1 (q : ℚ) : String :=
  if q < 0 then "-" ++ toFixed1core (-q) else toFixed1core q

/-- The fixed poster image base URL (`state.imageBaseUrl`). -/
def imageBaseUrl : String := "https://image.tmdb.org/t/p/w500"

/-- A card's poster slot: either an `img` element whose URL is
`imageBaseUrl` followed by the interpolation of the stored path value, or
the "No poster available" placeholder element. The code builds the URL
string eagerly; since `imageBaseUrl` is non-empty, the `img`-vs-placeholder
choice on the URL's truthiness coincides with the path's truthiness, which
is what this model records. -/
inductive Poster : Type
  | placeholder : Poster
  | image (path : JsVal) : Poster

/-- The displayed fields of one rendered card. `title` and `year` hold the
values the template interpolates into the markup (interpolation stringifies
them; for the string values this program renders, that is the identity). -/
structure Card : Type where
  title : JsVal
  rating : String
  year : JsVal
  poster : Poster

/-- The call `.slice(0, 4)` as applied to the date fallback chain's value: defined
on strings (the first four UTF-16 units; this program's dates are ASCII,
where codepoint `take` coincides) and on arrays; any other receiver has no
`slice` method and throws. -/
def jsSlice04 : JsVal → Except String JsVal
  | .str s => .ok (.str (s.take 4))
  | .arr xs => .ok (.arr (xs.take 4))
  | _ => .error "TypeError: slice is not a function"

/-- The renderer `makeCard(movie)` (src/app.js:81-119): derives the displayed fields of
one card. The first property read (`movie.poster_path`, line 82) throws on
a nullish record; once it succeeds the receiver is known non-nullish, so
the remaining reads cannot throw and are written with the total `fieldOf`.
The date chain's `.slice(0, 4)` (line 104) can still throw. The DOM `id`
(which appends a random suffix when `movie.id` is falsy) and the cosmetic
pointer-tracking handler are presentation-only and not part of the card
model. -/
def makeCard (movie : JsVal) : Except String Card :=
  match getField movie "poster_path" with
  | .error e => .error e
  | .ok pp =>
    let t := fieldOf movie "title"
    let n := fieldOf movie "name"
    let titleVal := if truthy t then t else if truthy n then n else .str "Untitled"
    let rating := match fieldOf movie "vote_average" with
      | .num q => toFixed1 q
      | _ => "N/A"
    let rd := fieldOf movie "release_date"
    let fad := fieldOf movie "first_air_date"
    let dateVal := if truthy rd then rd else if truthy fad then fad else .str ""
    match jsSlice04 dateVal with
    | .error e => .error e
    | .ok yearVal =>
      .ok { title := titleVal
            rating := rating
            year := yearVal
            poster := if truthy pp then .image pp else .placeholder }

/-! Section: The fetch / abort / settle scheduler

`searchMovies` and `loadTrending` (src/app.js:146-168) have the same
shape around their URLs: `setBusy(true)`, `fetchJson`, render the body's
`results` (or `[]`), `notifyError` on any rejection, `setBusy(false)` in
`finally`. A run of either is split at its only suspension point, the
awaited fetch: a synchronous `start` prefix and a `settle` resumption. -/

/-- The contents of the `moviesGrid` container: either rendered cards or
the inline error markup written by `notifyError`. -/
inductive Grid : Type
  | cards (cs : List Card) : Grid
  | error (msg : String) : Grid

/-- Whether the grid currently displays the inline error markup. -/
def Grid.isError : Grid → Bool
  | .cards _ => false
  | .error _ => true

/-- The message thrown when `state.apiKey` is falsy (src/app.js:122). -/
def missingKeyMessage : String := "Missing TMDb API key. Click the gear icon to set it."

/-- The message thrown on a non-ok response status (src/app.js:126). -/
def requestFailedMessage (status : Nat) : String :=
  "Request failed (" ++ toString status ++ ")"

/-- The rejection message of an aborted fetch. The exact wording is
browser-specific; only its presence (a non-empty `err.message`) matters. -/
def abortErrorMessage : String := "The operation was aborted."

/-- The handler `notifyError(err)` (src/app.js:170-177): replaces the grid's entire
content with inline markup holding the error's message, falling back to a
generic text when the message is empty. -/
def notifyError (msg : String) : Grid :=
  .error (if msg = "" then "Something went wrong" else msg)

/-- The check `res.ok`: the HTTP success range. -/
def okStatus (status : Nat) : Bool :=
  200 ≤ status && status ≤ 299

/-- A settled network response: HTTP status and parsed JSON body. -/
structure Resp : Type where
  status : Nat
  body : JsVal

/-- The success continuation of `searchMovies`/`loadTrending`
(src/app.js:139-156): read `data.results`, substitute `[]` unless it is an
array, and re-render the grid from scratch. A thrown `TypeError` (nullish
body, or a record `makeCard` cannot process — in the latter case the grid
has already been cleared and no fragment was appended) propagates to the
`catch` and is displayed by `notifyError`. -/
def renderBody (body : JsVal) : Grid :=
  match getField body "results" with
  | .error e => notifyError e
  | .ok r =>
    let results := match r with
      | .arr xs => xs
      | _ => ([] : List JsVal)
    match results.mapM makeCard with
    | .ok cs => .cards cs
    | .error e => notifyError e

/-- The mutable state the fetch path touches: the credential, the single
abort-controller slot (`state.abortController`), dispatched-but-unsettled
request ids, the set of aborted ids, the grid, and the `aria-busy` flag.
`nextId` numbers controllers in creation order. -/
structure Sys : Type where
  apiKey : Option String
  controller : Option Nat
  nextId : Nat
  aborted : List Nat
  pending : List Nat
  grid : Grid
  busy : Bool

/-- The guard `!state.apiKey` (src/app.js:122) is a truthiness test: absent or empty
keys count as missing. -/
def hasKey (st : Sys) : Bool :=
  match st.apiKey with
  | some k => k != ""
  | none => false

/-- Scheduler events: `start` runs the synchronous prefix of a
`searchMovies`/`loadTrending` call, `settle id r` resumes request `id`
when its fetch settles. -/
inductive Event : Type
  | start : Event
  | settle (id : Nat) (r : Resp) : Event

/-- One interleaving step.

`start` (src/app.js:121-128, 146-156): `setBusy(true)`; with a falsy key,
`fetchJson` throws before touching the controller and the `catch`/`finally`
display the message and clear busy. Otherwise the stored controller (if
any) is aborted, a fresh controller is stored, and the request is
dispatched — all before the first `await`.

`settle id r`: the resumption of request `id`. An aborted request's fetch
rejects with the abort error whatever the network did, and the `catch`
displays it; otherwise a non-ok status throws `Request failed (status)`,
and an ok response renders its body. `finally` clears the busy flag. -/
def stepEv (st : Sys) : Event → Sys
  | .start =>
    if hasKey st then
      { st with
          busy := true
          aborted := match st.controller with
            | some c => c :: st.aborted
            | none => st.aborted
          controller := some st.nextId
          nextId := st.nextId + 1
          pending := st.pending ++ [st.nextId] }
    else
      { st with grid := notifyError missingKeyMessage, busy := false }
  | .settle id r =>
    if id ∈ st.pending then
      { st with
          pending := st.pending.erase id
          busy := false
          grid :=
            if id ∈ st.aborted then notifyError abortErrorMessage
            else if okStatus r.status then renderBody r.body
            else notifyError (requestFailedMessage r.status) }
    else st

/-- Run a list of scheduler events. -/
def execEvents (st : Sys) : List Event → Sys
  | [] => st
  | e :: es => execEvents (stepEv st e) es

/-- The page's state after bootstrap: empty grid, no controller, no
requests, the credential as loaded. -/
def initSys (key : Option String) : Sys :=
  { apiKey := key, controller := none, nextId := 0, aborted := [],
    pending := [], grid := .cards [], busy := false }

/-- Requests dispatched, not yet settled, and not aborted. -/
def liveRequests (st : Sys) : List Nat :=
  st.pending.filter (fun i => decide (i ∉ st.aborted))

/-! Section: The input debounce (src/app.js:205-214)

Each `input` event trims the field's current value, clears the pending
timer, and schedules a new 300ms timer closing over that trimmed query.
A timer therefore fires iff no further input event occurs strictly before
its deadline (only the immediately following event can clear it, since
every event overwrites `debounceTimer` with its own handle). -/

/-- One `input` event: its timestamp in milliseconds and the field's raw
value at that moment. -/
abbrev InputEvent := Nat × String

/-- The debounce delay (src/app.js:213). -/
def debounceMs : Nat := 300

/-- The input events whose debounce timer fires, in order: event `i`'s
timer survives iff `i` is the last event or event `i+1` arrives at or
after the deadline `tᵢ + debounceMs`. -/
def firedEvents : List InputEvent → List InputEvent
  | [] => []
  | [e] => [e]
  | e :: e2 :: rest =>
    (if e2.1 < e.1 + debounceMs then [] else [e]) ++ firedEvents (e2 :: rest)

/-- What a fired debounce callback triggers. -/
inductive DebAction : Type
  | search (q : String) : DebAction
  | trending : DebAction
deriving DecidableEq

/-- The debounce callback body (src/app.js:211-212), applied to the
trimmed query `q` captured when the input event ran: two independent
`if`s — search for queries of length ≥ 3, trending reload for the empty
query. -/
def timerActions (q : String) : List DebAction :=
  (if 3 ≤ q.length then [.search q] else []) ++
  (if q.length = 0 then [.trending] else [])

/-- The model of `String.prototype.trim`: strip leading and trailing whitespace.
Whitespace is `Char.isWhitespace`; JS additionally strips some exotic
Unicode space characters that no claim uses. -/
def jsTrim (s : String) : String :=
  (((s.data.dropWhile Char.isWhitespace).reverse.dropWhile
      Char.isWhitespace).reverse).asString

/-- All actions a sequence of input events triggers once every surviving
timer has fired; each callback closes over the trimmed query captured at
its input event (src/app.js:208). -/
def debounceRun (es : List InputEvent) : List DebAction :=
  ((firedEvents es).map (fun e => timerActions (jsTrim e.2))).flatten

/-! Section: The credential store (src/app.js:45-64) -/

/-- The in-memory credential (`state.apiKey`) and the settings panel's
text field (`el.apiKeyInput.value`). -/
structure CredState : Type where
  apiKey : Option String
  apiKeyInput : String
deriving DecidableEq

/-- The outcome of `localStorage.getItem('tmdb_api_key')`: the stored
value (or `null`), or a thrown storage-access error. -/
inductive StorageRead : Type
  | ok (value : Option String) : StorageRead
  | failure : StorageRead
deriving DecidableEq

/-- The loader `loadApiKey()` (src/app.js:45-55): `state.apiKey = key && key.length
> 5 ? key : null` — the read value is adopted only when truthy and longer
than five characters, and an adopted key is also echoed into the settings
input; a storage access error is swallowed, leaving all state untouched. -/
def loadApiKey (read : StorageRead) (st : CredState) : CredState :=
  match read with
  | .failure => st
  | .ok v =>
    let adopted : Option String :=
      match v with
      | some k => if k ≠ "" ∧ 5 < k.length then some k else none
      | none => none
    match adopted with
    | some k => { st with apiKey := some k, apiKeyInput := k }
    | none => { st with apiKey := none }

/-- One browser session: the persistent cell `tmdb_api_key` plus the
in-memory credential state. -/
structure Session : Type where
  stored : Option String
  cred : CredState
deriving DecidableEq

/-- The writer `saveApiKey(key)` (src/app.js:57-64): write storage, then update the
in-memory key; a throwing `setItem` skips both (the in-memory update sits
after it inside the `try`). -/
def saveApiKey (key : String) (storageWorks : Bool) (s : Session) : Session :=
  if storageWorks then
    { stored := some key, cred := { s.cred with apiKey := some key } }
  else s

/-- A `loadApiKey()` call in a session whose storage functions: the read
returns the stored cell. -/
def loadFromSession (s : Session) : Session :=
  { s with cred := loadApiKey (.ok s.stored) s.cred }

/-! Section: The in-flight invariant -/

/-- The inductive invariant of the scheduler: dispatched request ids are
below the id counter and distinct, and any pending request that has not
been aborted is the one the stored controller belongs to. -/
structure SysInv (st : Sys) : Prop where
  pend_lt : ∀ i ∈ st.pending, i < st.nextId
  nodup : st.pending.Nodup
  live_ctrl : ∀ i ∈ st.pending, i ∉ st.aborted → st.controller = some i

theorem sysInv_init (key : Option String) : SysInv (initSys key) := by
  constructor <;> simp [initSys]

theorem sysInv_step (st : Sys) (e : Event) (h : SysInv st) : SysInv (stepEv st e) := by
  cases e with
  | start =>
    by_cases hk : hasKey st = true
    · cases hc : st.controller with
      | none =>
        refine ⟨?_, ?_, ?_⟩ <;> simp only [stepEv, hk, hc, if_true]
        · intro i hi
          simp only [List.mem_append, List.mem_singleton] at hi
          rcases hi with hi | hi
          · exact Nat.lt_succ_of_lt (h.pend_lt i hi)
          · omega
        · refine List.Nodup.append h.nodup (List.nodup_singleton _) ?_
          intro i hi hj
          simp only [List.mem_singleton] at hj
          subst hj
          exact absurd (h.pend_lt _ hi) (by omega)
        · intro i hi hni
          simp only [List.mem_append, List.mem_singleton] at hi
          rcases hi with hi | hi
          · exfalso
            have hctrl := h.live_ctrl i hi hni
            rw [hc] at hctrl
            exact Option.noConfusion hctrl
          · simp [hi]
      | some c =>
        refine ⟨?_, ?_, ?_⟩ <;> simp only [stepEv, hk, hc, if_true]
        · intro i hi
          simp only [List.mem_append, List.mem_singleton] at hi
          rcases hi with hi | hi
          · exact Nat.lt_succ_of_lt (h.pend_lt i hi)
          · omega
        · refine List.Nodup.append h.nodup (List.nodup_singleton _) ?_
          intro i hi hj
          simp only [List.mem_singleton] at hj
          subst hj
          exact absurd (h.pend_lt _ hi) (by omega)
        · intro i hi hni
          simp only [List.mem_append, List.mem_singleton] at hi
          simp only [List.mem_cons, not_or] at hni
          rcases hi with hi | hi
          · exfalso
            have hctrl := h.live_ctrl i hi hni.2
            rw [hc] at hctrl
            exact hni.1 (Option.some.inj hctrl).symm
          · simp [hi]
    · have hk' : hasKey st = false := by simpa using hk
      refine ⟨?_, ?_, ?_⟩ <;> simp only [stepEv, hk', if_false, Bool.false_eq_true] <;>
        first
          | exact h.pend_lt
          | exact h.nodup
          | exact h.live_ctrl
  | settle id r =>
    by_cases hp : id ∈ st.pending
    · refine ⟨?_, ?_, ?_⟩ <;> simp only [stepEv, hp, if_true]
      · intro i hi
        exact h.pend_lt i (List.mem_of_mem_erase hi)
      · exact List.Nodup.erase _ h.nodup
      · intro i hi hni
        exact h.live_ctrl i (List.mem_of_mem_erase hi) hni
    · simpa [stepEv, hp] using h

theorem sysInv_exec (key : Option String) :
    ∀ (evs : List Event) (st : Sys), SysInv st → SysInv (execEvents st evs)
  | [], _, h => h
  | e :: es, st, h => sysInv_exec key es (stepEv st e) (sysInv_step st e h)

theorem live_length_le_one (st : Sys) (h : SysInv st) :
    (liveRequests st).length ≤ 1 := by
  match hl : liveRequests st with
  | [] => simp
  | [a] => simp
  | a :: b :: t =>
    exfalso
    have hnd : (liveRequests st).Nodup := List.Nodup.filter _ h.nodup
    have hmem_a : a ∈ liveRequests st := by rw [hl]; exact List.mem_cons_self _ _
    have hmem_b : b ∈ liveRequests st := by
      rw [hl]
      exact List.mem_cons_of_mem _ (List.mem_cons_self _ _)
    obtain ⟨hpa, hna⟩ := List.mem_filter.1 hmem_a
    obtain ⟨hpb, hnb⟩ := List.mem_filter.1 hmem_b
    have ha' := h.live_ctrl a hpa (of_decide_eq_true hna)
    have hb' := h.live_ctrl b hpb (of_decide_eq_true hnb)
    have hab : a = b := Option.some.inj (ha'.symm.trans hb')
    rw [hl] at hnd
    subst hab
    simp at hnd

/-! Section: Claim theorems -/

/-- C2: at any instant at most one results request is in flight — in every
state reachable from bootstrap, at most one dispatched request is neither
settled nor aborted; and a fetch call that reaches dispatch (truthy key)
first aborts the previously stored controller (if any), then stores a
fresh controller whose request it dispatches. -/
theorem at_most_one_request_in_flight :
    (∀ (key : Option String) (evs : List Event),
      (liveRequests (execEvents (initSys key) evs)).length ≤ 1) ∧
    (∀ st : Sys, hasKey st = true →
      (∀ c, st.controller = some c → c ∈ (stepEv st .start).aborted) ∧
      (stepEv st .start).controller = some st.nextId ∧
      st.nextId ∈ (stepEv st .start).pending) := by
  constructor
  · intro key evs
    exact live_length_le_one _ (sysInv_exec key evs _ (sysInv_init key))
  · intro st hk
    refine ⟨?_, ?_, ?_⟩
    · intro c hc
      simp [stepEv, hk, hc]
    · simp [stepEv, hk]
    · simp [stepEv, hk]

theorem at_most_one_request_in_flight_witness :
    (liveRequests (execEvents (initSys (some "0123456789"))
      [.start, .start])).length ≤ 1 ∧
    0 ∈ (stepEv (stepEv (initSys (some "0123456789")) .start) .start).aborted :=
  ⟨at_most_one_request_in_flight.1 (some "0123456789") [.start, .start],
   (at_most_one_request_in_flight.2 (stepEv (initSys (some "0123456789")) .start)
      (by decide)).1 0 (by decide)⟩

/-- C8: `load()` rejects a stored credential of length ≤ 5 (the in-memory
credential becomes none), likewise an absent entry; a storage access
failure leaves the startup state's absent credential in place; and a value
is adopted only when its length exceeds 5. -/
theorem load_rejects_short_credentials :
    (∀ (k : String) (st : CredState), k.length ≤ 5 →
      (loadApiKey (.ok (some k)) st).apiKey = none) ∧
    (∀ st : CredState, (loadApiKey (.ok none) st).apiKey = none) ∧
    (∀ st : CredState, st.apiKey = none → (loadApiKey .failure st).apiKey = none) ∧
    (∀ (k adopted : String) (st : CredState),
      (loadApiKey (.ok (some k)) st).apiKey = some adopted →
        adopted = k ∧ 5 < k.length) := by
  refine ⟨fun k st h => ?_, fun st => ?_, fun st h => ?_, fun k a st h => ?_⟩
  · have hc : ¬(k ≠ "" ∧ 5 < k.length) := fun hc => absurd h (by omega)
    simp [loadApiKey, hc]
  · simp [loadApiKey]
  · simpa [loadApiKey] using h
  · by_cases hc : k ≠ "" ∧ 5 < k.length
    · simp [loadApiKey, hc.1, hc.2] at h
      exact ⟨h.symm, hc.2⟩
    · simp [loadApiKey, hc] at h

theorem load_rejects_short_credentials_witness :
    (loadApiKey (.ok (some "abcde")) { apiKey := none, apiKeyInput := "" }).apiKey
      = none :=
  load_rejects_short_credentials.1 "abcde" { apiKey := none, apiKeyInput := "" }
    (by decide)

/-- C9: saving a credential of length ≥ 10 with functioning storage and
then loading in the same session yields exactly that credential. -/
theorem save_then_load_round_trips (key : String) (s : Session)
    (h : 10 ≤ key.length) :
    (loadFromSession (saveApiKey key true s)).cred.apiKey = some key := by
  have hne : key ≠ "" := by
    intro he
    rw [he] at h
    simp at h
  have h5 : 5 < key.length := by omega
  simp [loadFromSession, saveApiKey, loadApiKey, hne, h5]

theorem save_then_load_round_trips_witness :
    (loadFromSession (saveApiKey "0123456789" true
      { stored := none, cred := { apiKey := none, apiKeyInput := "" } })).cred.apiKey
      = some "0123456789" :=
  save_then_load_round_trips "0123456789"
    { stored := none, cred := { apiKey := none, apiKeyInput := "" } } (by decide)

/-- C10: whenever `loadApiKey` adopts a stored credential (length > 5), it
also writes it into the settings panel's credential input field. -/
theorem load_echoes_adopted_key (k : String) (st : CredState) (h : 5 < k.length) :
    (loadApiKey (.ok (some k)) st).apiKeyInput = k ∧
    (loadApiKey (.ok (some k)) st).apiKey = some k := by
  have hne : k ≠ "" := by
    intro he
    rw [he] at h
    simp at h
  constructor <;> simp [loadApiKey, hne, h]

theorem load_echoes_adopted_key_witness :
    (loadApiKey (.ok (some "secret-token"))
      { apiKey := none, apiKeyInput := "" }).apiKeyInput = "secret-token" :=
  (load_echoes_adopted_key "secret-token" { apiKey := none, apiKeyInput := "" }
    (by decide)).1

/-- C5: the debounce callback searches for trimmed queries of length ≥ 3,
reloads trending exactly for the empty trimmed query, and does nothing for
trimmed queries of length 1 or 2. -/
theorem debounce_dead_zone (q : String) :
    (3 ≤ q.length → timerActions q = [.search q]) ∧
    (q.length = 0 → timerActions q = [.trending]) ∧
    ((q.length = 1 ∨ q.length = 2) → timerActions q = []) := by
  refine ⟨fun h => ?_, fun h => ?_, fun h => ?_⟩
  · simp [timerActions, h, show ¬ q.length = 0 by omega]
  · simp [timerActions, h, show ¬ 3 ≤ q.length by omega]
  · simp [timerActions, show ¬ 3 ≤ q.length by omega, show ¬ q.length = 0 by omega]

theorem debounce_dead_zone_witness :
    timerActions "abc" = [.search "abc"] ∧
    timerActions "" = [.trending] ∧
    timerActions "ab" = [] :=
  ⟨(debounce_dead_zone "abc").1 (by decide),
   (debounce_dead_zone "").2.1 (by decide),
   (debounce_dead_zone "ab").2.2 (Or.inr (by decide))⟩

/-- C4: when every consecutive gap in a non-empty run of input events is
below the debounce delay (a single debounce window), exactly one timer
fires — the last event's — so the triggered actions are exactly those for
the last event's trimmed query. -/
theorem debounce_window_single_fire :
    ∀ (es : List InputEvent) (hne : es ≠ []),
      es.Chain' (fun a b => b.1 < a.1 + debounceMs) →
      firedEvents es = [es.getLast hne] ∧
      debounceRun es = timerActions (jsTrim (es.getLast hne).2)
  | [], hne, _ => absurd rfl hne
  | [e], _, _ => ⟨rfl, by simp [debounceRun, firedEvents, timerActions]⟩
  | e :: e2 :: rest, _, hch => by
    rw [List.chain'_cons] at hch
    have ih := debounce_window_single_fire (e2 :: rest) (by simp) hch.2
    have hlast : (e :: e2 :: rest).getLast (by simp)
        = (e2 :: rest).getLast (by simp) :=
      List.getLast_cons (by simp)
    constructor
    · simp only [firedEvents, hch.1, if_pos, List.nil_append]
      rw [ih.1, hlast]
    · simp only [debounceRun, firedEvents, hch.1, if_pos, List.nil_append]
      rw [show ((firedEvents (e2 :: rest)).map
            (fun ev => timerActions (jsTrim ev.2))).flatten = debounceRun (e2 :: rest) from rfl,
          ih.2, hlast]

theorem debounce_window_single_fire_witness :
    firedEvents [(0, "a"), (100, "ab"), (200, "abc")] = [(200, "abc")] ∧
    debounceRun [(0, "a"), (100, "ab"), (200, "abc")] = [.search "abc"] := by
  have h := debounce_window_single_fire [(0, "a"), (100, "ab"), (200, "abc")]
    (by decide) (by norm_num [List.chain'_cons, debounceMs])
  exact ⟨h.1, h.2.trans (by decide)⟩

theorem requestFailedMessage_ne_empty (s : Nat) : requestFailedMessage s ≠ "" := by
  intro he
  have hlen := congrArg String.length he
  simp only [requestFailedMessage, String.length_append] at hlen
  have h1 : ("Request failed (" : String).length = 16 := rfl
  have h2 : (")" : String).length = 1 := rfl
  have h0 : ("" : String).length = 0 := rfl
  omega

/-- C6: a live request settling with a non-success status makes the fetch
fail with `Request failed (status)` — a message containing the numeric
status — and `notifyError` replaces the whole grid content with that
message, so no prior cards remain. -/
theorem error_status_renders_status_message (st : Sys) (id : Nat) (r : Resp)
    (hp : id ∈ st.pending) (ha : id ∉ st.aborted) (hbad : okStatus r.status = false) :
    (stepEv st (.settle id r)).grid = .error (requestFailedMessage r.status) ∧
    (∃ pre post : String,
      requestFailedMessage r.status = pre ++ toString r.status ++ post) ∧
    (∀ cs : List Card, (stepEv st (.settle id r)).grid ≠ .cards cs) := by
  have h1 : (stepEv st (.settle id r)).grid
      = .error (requestFailedMessage r.status) := by
    simp [stepEv, hp, ha, hbad, notifyError, requestFailedMessage_ne_empty r.status]
  refine ⟨h1, ⟨"Request failed (", ")", rfl⟩, ?_⟩
  intro cs hcs
  rw [h1] at hcs
  exact Grid.noConfusion hcs

theorem error_status_renders_status_message_witness :
    (stepEv (stepEv (initSys (some "0123456789")) .start)
        (.settle 0 ⟨401, .obj []⟩)).grid
      = .error (requestFailedMessage 401) ∧
    requestFailedMessage 401 = "Request failed (401)" :=
  ⟨(error_status_renders_status_message
      (stepEv (initSys (some "0123456789")) .start) 0 ⟨401, .obj []⟩
      (by decide) (by decide) (by decide)).1, rfl⟩

/-- C3 as stated is false: the JSON body `null` has no `results` list, yet
the success path throws a `TypeError` reading `null.results`, and the
`catch` surfaces that error inline instead of rendering the empty list. -/
theorem null_body_counterexample :
    (execEvents (initSys (some "0123456789"))
        [.start, .settle 0 ⟨200, .null⟩]).grid
      = .error "TypeError: cannot read property results of null" ∧
    (execEvents (initSys (some "0123456789"))
        [.start, .settle 0 ⟨200, .null⟩]).grid ≠ .cards [] :=
  ⟨rfl, fun h => Grid.noConfusion h⟩

/-- C3 amended: for a live request settling successfully with any
non-null(ish) JSON body whose `results` field is not an array, no error is
surfaced and the renderer is invoked with the empty list. -/
theorem non_null_body_without_results_renders_empty (st : Sys) (id : Nat) (r : Resp)
    (hp : id ∈ st.pending) (ha : id ∉ st.aborted) (hok : okStatus r.status = true)
    (hnn : r.body.isNullish = false)
    (hna : (fieldOf r.body "results").isArr = false) :
    (stepEv st (.settle id r)).grid = .cards [] := by
  have hrb : renderBody r.body = .cards [] := by
    unfold renderBody
    rw [getField_ok _ _ hnn]
    cases hres : fieldOf r.body "results" with
    | arr xs =>
      rw [hres] at hna
      simp [JsVal.isArr] at hna
    | undefined => rfl
    | null => rfl
    | bool b => rfl
    | num q => rfl
    | str s => rfl
    | obj fields => rfl
  simp [stepEv, hp, ha, hok, hrb]

theorem non_null_body_without_results_renders_empty_witness :
    (stepEv (stepEv (initSys (some "0123456789")) .start)
        (.settle 0 ⟨200, .obj [("page", .num 1)]⟩)).grid = .cards [] :=
  non_null_body_without_results_renders_empty
    (stepEv (initSys (some "0123456789")) .start) 0 ⟨200, .obj [("page", .num 1)]⟩
    (by decide) (by decide) (by decide) rfl rfl

/-- C1 as stated is false: issuing fetch B while fetch A is pending aborts
A, but A's rejection is routed through `notifyError` like any other
failure — the abort error message from A is written into the results
container (here: over the empty grid B's supersession left behind). -/
theorem stale_abort_error_counterexample :
    (execEvents (initSys (some "0123456789")) [.start, .start]).grid
      = .cards [] ∧
    (execEvents (initSys (some "0123456789"))
        [.start, .start, .settle 0 ⟨200, .obj [("results", .arr [])]⟩]).grid
      = .error abortErrorMessage :=
  ⟨rfl, rfl⟩

/-- C1 amended: issuing fetch B before fetch A settles aborts A's
controller; abortedness is permanent; and an aborted request's settlement
never renders cards — instead it displays the abort error message in the
results container. -/
theorem superseded_request_never_renders :
    (∀ (st : Sys) (c : Nat), hasKey st = true → st.controller = some c →
      c ∈ (stepEv st .start).aborted) ∧
    (∀ (st : Sys) (e : Event) (a : Nat),
      a ∈ st.aborted → a ∈ (stepEv st e).aborted) ∧
    (∀ (st : Sys) (a : Nat) (r : Resp), a ∈ st.aborted → a ∈ st.pending →
      (stepEv st (.settle a r)).grid = .error abortErrorMessage) := by
  have habort : abortErrorMessage ≠ "" := by decide
  refine ⟨?_, ?_, ?_⟩
  · intro st c hk hc
    simp [stepEv, hk, hc]
  · intro st e a hmem
    cases e with
    | start =>
      by_cases hk : hasKey st = true
      · cases hc : st.controller <;> simp [stepEv, hk, hc, hmem]
      · simp [stepEv, hk, hmem]
    | settle id r =>
      by_cases hp : id ∈ st.pending <;> simp [stepEv, hp, hmem]
  · intro st a r hab hp
    simp [stepEv, hp, hab, notifyError, habort]

theorem superseded_request_never_renders_witness :
    0 ∈ (stepEv (stepEv (initSys (some "0123456789")) .start) .start).aborted ∧
    (stepEv (execEvents (initSys (some "0123456789")) [.start, .start])
        (.settle 0 ⟨200, .obj [("results", .arr [])]⟩)).grid
      = .error abortErrorMessage :=
  ⟨superseded_request_never_renders.1
      (stepEv (initSys (some "0123456789")) .start) 0 (by decide) (by decide),
   superseded_request_never_renders.2.2
      (execEvents (initSys (some "0123456789")) [.start, .start]) 0
      ⟨200, .obj [("results", .arr [])]⟩ (by decide) (by decide)⟩

/-- C7: for every record `makeCard` renders, the card's title is the
record's `title` value, falling back to `name`, falling back to the
literal `"Untitled"`; the rating text is the numeric `vote_average`
formatted to one decimal place, or `"N/A"` when it is not a number; the
year badge is the first four characters of `release_date`, falling back
to `first_air_date`, or empty when both are absent; and a record with a
falsy `poster_path` yields the placeholder element, never an image. -/
theorem makeCard_fields (m : JsVal) (c : Card) (h : makeCard m = .ok c) :
    (truthy (fieldOf m "title") = true → c.title = fieldOf m "title") ∧
    (truthy (fieldOf m "title") = false → truthy (fieldOf m "name") = true →
      c.title = fieldOf m "name") ∧
    (truthy (fieldOf m "title") = false → truthy (fieldOf m "name") = false →
      c.title = .str "Untitled") ∧
    (∀ q : ℚ, fieldOf m "vote_average" = .num q → c.rating = toFixed1 q) ∧
    ((fieldOf m "vote_average").isNum = false → c.rating = "N/A") ∧
    (∀ s : String, fieldOf m "release_date" = .str s → s ≠ "" →
      c.year = .str (s.take 4)) ∧
    (truthy (fieldOf m "release_date") = false →
      ∀ s : String, fieldOf m "first_air_date" = .str s → s ≠ "" →
        c.year = .str (s.take 4)) ∧
    (truthy (fieldOf m "release_date") = false →
      truthy (fieldOf m "first_air_date") = false → c.year = .str "") ∧
    (truthy (fieldOf m "poster_path") = false → c.poster = .placeholder) := by
  cases hgf : getField m "poster_path" with
  | error e =>
    rw [makeCard, hgf] at h
    exact Except.noConfusion h
  | ok pp =>
    have hpp : pp = fieldOf m "poster_path" := by
      cases m <;> simp_all [getField, fieldOf]
    subst hpp
    simp only [makeCard, hgf] at h
    split at h
    · exact Except.noConfusion h
    · rename_i yearVal hslice
      have hc := Except.ok.inj h
      subst hc
      refine ⟨?_, ?_, ?_, ?_, ?_, ?_, ?_, ?_, ?_⟩
      · intro ht
        simp [ht]
      · intro ht hn
        simp [ht, hn]
      · intro ht hn
        simp [ht, hn]
      · intro q hq
        simp [hq]
      · intro hv
        rcases hv' : fieldOf m "vote_average" with _ | _ | b | q | s | xs | fs <;>
          simp [hv']
        rw [hv'] at hv
        simp [JsVal.isNum] at hv
      · intro s hrd hs
        have ht : truthy (JsVal.str s) = true := by simp [truthy, hs]
        rw [hrd, ht] at hslice
        simp only [if_true, jsSlice04, Except.ok.injEq] at hslice
        simp [← hslice]
      · intro hrd s hfad hs
        have ht : truthy (JsVal.str s) = true := by simp [truthy, hs]
        rw [hrd, hfad, ht] at hslice
        simp only [Bool.false_eq_true, if_false, if_true, jsSlice04,
          Except.ok.injEq] at hslice
        simp [← hslice]
      · intro hrd hfad
        rw [hrd, hfad] at hslice
        simp only [Bool.false_eq_true, if_false, jsSlice04, Except.ok.injEq] at hslice
        rw [← hslice]
        rfl
      · intro hp
        simp [hp]

/-- The spec's concrete example record. `mkRat 8456 1000` is the rational
value of the literal `8.456` (see the witness's last conjunct). -/
def duneMovie : JsVal :=
  .obj [("title", .str "Dune"), ("vote_average", .num (mkRat 8456 1000))]

/-- The card `makeCard` produces for `duneMovie`. -/
def duneCard : Card :=
  { title := .str "Dune", rating := "8.5", year := .str "", poster := .placeholder }

theorem makeCard_fields_witness :
    makeCard duneMovie = .ok duneCard ∧
    duneCard.title = .str "Dune" ∧
    duneCard.rating = "8.5" ∧
    duneCard.poster = .placeholder ∧
    (8.456 : ℚ) = mkRat 8456 1000 := by
  have h := makeCard_fields duneMovie duneCard rfl
  refine ⟨rfl, (h.1 rfl).trans rfl, ?_, h.2.2.2.2.2.2.2.2 rfl, ?_⟩
  · exact (h.2.2.2.1 (mkRat 8456 1000) rfl).trans rfl
  · norm_num [Rat.mkRat_eq_div]

end MovieApp
